import Mathlib

/-!
Shallow embedding of `src/server.py` (Cab Booking MCP Server).

The server keeps two globals: `bookings_db` (a Python dict from booking id
to a record dict, insertion-ordered) and `booking_counter` (starting at
1000).  The `call_tool` dispatcher handles three tools (`book_cab`,
`check_booking_status`, `list_available_cabs`) and answers any other name
with an "Unknown tool" text.  `read_resource` serves `booking://all` as a
JSON dump of `bookings_db` and raises `ValueError` otherwise; `get_prompt`
serves `booking_assistant` and raises `ValueError` otherwise.

Modelling choices:
- A Python dict is an insertion-ordered association list with unique keys;
  `d[k] = v` updates in place when `k` is present, else appends.
- `arguments` is a dict of string arguments; `arguments[k]` on a missing
  key raises `KeyError`.  Exceptions escaping the handler are modelled by
  the `Except PyError` result channel.
- The float literal `50.00` is the rational `50`.
- `json.dumps` / `json.loads` (Python stdlib, external to the repo) are
  modelled at the JSON-value level: `dbToJson` is the value `json.dumps`
  renders, `jsonToDb` the typed reading of what `json.loads` returns.
-/

/-- One record of `bookings_db`: the dict literal built in `book_cab`
(`src/server.py` lines 114-122). -/
structure Booking where
  booking_id : String
  pickup_location : String
  dropoff_location : String
  pickup_datetime : String
  cab_type : String
  status : String
  fare : ℚ
deriving DecidableEq

/-- The two module-level globals of `server.py`: `bookings_db` and
`booking_counter` (lines 33-34). -/
structure ServerState where
  bookings_db : List (String × Booking)
  booking_counter : Nat
deriving DecidableEq

/-- The freshly started server: empty dict, counter 1000. -/
def initialState : ServerState := ⟨[], 1000⟩

/-- Python dict assignment `d[k] = v`: replace in place if `k` is bound,
else append at the end (insertion order preserved). -/
def dictInsert (k : String) (v : Booking) : List (String × Booking) → List (String × Booking)
  | [] => [(k, v)]
  | (k', v') :: rest => if k' = k then (k, v) :: rest else (k', v') :: dictInsert k v rest

/-- Python exceptions that the dispatcher code can raise. -/
inductive PyError where
  | keyError (key : String)
  | valueError (msg : String)
deriving DecidableEq

/-- Python `arguments[k]`: the value when bound, `KeyError` otherwise. -/
def getArg (args : List (String × String)) (k : String) : Except PyError String :=
  match args.lookup k with
  | some v => Except.ok v
  | none => Except.error (PyError.keyError k)

/-- The confirmation f-string returned by `book_cab` (lines 128-139). -/
def bookingConfirmationText (bid p d t c : String) : String :=
  "Cab Booking Confirmed!\n\n" ++
  "                        Booking ID: " ++ bid ++ "\n" ++
  "                        Pickup: " ++ p ++ "\n" ++
  "                        Drop-off: " ++ d ++ "\n" ++
  "                        Time: " ++ t ++ "\n" ++
  "                        Cab Type: " ++ c ++ "\n" ++
  "                        Status: CONFIRMED\n" ++
  "                        Estimated Fare: $50.00\n\n" ++
  "                        Your driver details will be sent 30 minutes before pickup.\n" ++
  "                        "

/-- Python `str` of the float fares occurring here (`str(50.0) = "50.0"`). -/
def pyFloatRepr (q : ℚ) : String :=
  if q.den = 1 then toString q.num ++ ".0" else toString q.num ++ "/" ++ toString q.den

/-- The status f-string returned by `check_booking_status` on a hit
(lines 151-160); `status` is upper-cased as in `booking['status'].upper()`. -/
def statusText (b : Booking) : String :=
  " Booking Status\n\n" ++
  "                           Booking ID: " ++ b.booking_id ++ "\n" ++
  "                           Status: " ++ b.status.toUpper ++ "\n" ++
  "                           Pickup: " ++ b.pickup_location ++ "\n" ++
  "                           Drop-off: " ++ b.dropoff_location ++ "\n" ++
  "                           Time: " ++ b.pickup_datetime ++ "\n" ++
  "                           Cab Type: " ++ b.cab_type ++ "\n" ++
  "                           Fare: $" ++ pyFloatRepr b.fare ++ "\n" ++
  "                        "

/-- The not-found text of `check_booking_status` (line 167). -/
def notFoundText (bid : String) : String :=
  "Booking " ++ bid ++ " not found. Please check the booking ID."

/-- The hard-coded `available_cabs` list (lines 175-179). -/
def availableCabs : List (String × Nat × String) :=
  [("Standard", 5, "3 mins"), ("Premium", 3, "5 mins"), ("Luxury", 1, "8 mins")]

/-- The response built by `list_available_cabs` (lines 181-183). -/
def listCabsText (location : String) : String :=
  availableCabs.foldl
    (fun r cab =>
      r ++ "• " ++ cab.1 ++ ": " ++ Nat.repr cab.2.1 ++ " available (ETA: " ++ cab.2.2 ++ ")\n")
    (" Available Cabs near " ++ location ++ ":\n\n")

/-- The `call_tool` dispatcher (lines 94-198).  It returns the list of
text contents and the updated global state; an uncaught Python exception
(here only `KeyError` from a missing argument) is the `Except.error`
case, in which the globals are unchanged since the subscript is evaluated
before any mutation. -/
def call_tool (name : String) (args : List (String × String)) (s : ServerState) :
    Except PyError (List String) × ServerState :=
  if name = "book_cab" then
    match (do
      let pickup ← getArg args "pickup_location"
      let dropoff ← getArg args "dropoff_location"
      let datetime ← getArg args "pickup_datetime"
      let cab_type ← getArg args "cab_type"
      pure (pickup, dropoff, datetime, cab_type) :
        Except PyError (String × String × String × String)) with
    | Except.error e => (Except.error e, s)
    | Except.ok (pickup, dropoff, datetime, cab_type) =>
      let booking_id := "CAB" ++ Nat.repr s.booking_counter
      let booking : Booking :=
        ⟨booking_id, pickup, dropoff, datetime, cab_type, "confirmed", 50⟩
      (Except.ok [bookingConfirmationText booking_id pickup dropoff datetime cab_type],
       ⟨dictInsert booking_id booking s.bookings_db, s.booking_counter + 1⟩)
  else if name = "check_booking_status" then
    match getArg args "booking_id" with
    | Except.error e => (Except.error e, s)
    | Except.ok booking_id =>
      match s.bookings_db.lookup booking_id with
      | some booking => (Except.ok [statusText booking], s)
      | none => (Except.ok [notFoundText booking_id], s)
  else if name = "list_available_cabs" then
    match getArg args "location" with
    | Except.error e => (Except.error e, s)
    | Except.ok location => (Except.ok [listCabsText location], s)
  else
    (Except.ok ["Unknown tool: " ++ name], s)

/-- JSON values, as produced by `json.dumps` / consumed by `json.loads`
for the data in this server (strings, numbers, objects suffice). -/
inductive Json where
  | str (s : String)
  | num (q : ℚ)
  | obj (fields : List (String × Json))

/-- The JSON object `json.dumps` renders for one booking record. -/
def bookingToJson (b : Booking) : Json :=
  Json.obj
    [("booking_id", Json.str b.booking_id),
     ("pickup_location", Json.str b.pickup_location),
     ("dropoff_location", Json.str b.dropoff_location),
     ("pickup_datetime", Json.str b.pickup_datetime),
     ("cab_type", Json.str b.cab_type),
     ("status", Json.str b.status),
     ("fare", Json.num b.fare)]

/-- The JSON object `json.dumps(bookings_db)` renders: id mapped to the
booking's fields, in insertion order. -/
def dbToJson (db : List (String × Booking)) : Json :=
  Json.obj (db.map (fun p => (p.1, bookingToJson p.2)))

/-- Read a string field out of a parsed JSON object. -/
def jGetStr (fields : List (String × Json)) (k : String) : Option String :=
  match fields.lookup k with
  | some (Json.str v) => some v
  | _ => none

/-- Read a numeric field out of a parsed JSON object. -/
def jGetNum (fields : List (String × Json)) (k : String) : Option ℚ :=
  match fields.lookup k with
  | some (Json.num v) => some v
  | _ => none

/-- Reconstruct one booking record from its parsed JSON object. -/
def jsonToBooking : Json → Option Booking
  | Json.obj fields => do
    let bid ← jGetStr fields "booking_id"
    let p ← jGetStr fields "pickup_location"
    let d ← jGetStr fields "dropoff_location"
    let t ← jGetStr fields "pickup_datetime"
    let c ← jGetStr fields "cab_type"
    let st ← jGetStr fields "status"
    let f ← jGetNum fields "fare"
    pure ⟨bid, p, d, t, c, st, f⟩
  | _ => none

/-- Reconstruct the entries of the parsed JSON dump, entry by entry. -/
def decodeEntries : List (String × Json) → Option (List (String × Booking))
  | [] => some []
  | (k, j) :: rest => do
    let b ← jsonToBooking j
    let tl ← decodeEntries rest
    pure ((k, b) :: tl)

/-- Reconstruct the id-to-booking mapping from the parsed JSON dump. -/
def jsonToDb : Json → Option (List (String × Booking))
  | Json.obj fields => decodeEntries fields
  | _ => none

/-- The `read_resource` handler (lines 224-234): the JSON dump of
`bookings_db` for `booking://all`, a raised `ValueError` otherwise. -/
def read_resource (uri : String) (s : ServerState) : Except PyError Json :=
  if uri = "booking://all" then Except.ok (dbToJson s.bookings_db)
  else Except.error (PyError.valueError ("Unknown resource: " ++ uri))

/-- The fixed system text of the `booking_assistant` prompt (lines 270-283). -/
def bookingAssistantText : String :=
  "You are a professional cab booking assistant.\n\n" ++
  "Guidelines:\n" ++
  "- Be friendly and efficient\n" ++
  "- Always confirm booking details before finalizing\n" ++
  "- Provide clear estimated fares\n" ++
  "- Offer alternative cab types if needed\n" ++
  "- Handle cancellations professionally\n\n" ++
  "Available cab types:\n" ++
  "- Standard: Budget-friendly option\n" ++
  "- Premium: Comfortable mid-range\n" ++
  "- Luxury: High-end experience\n"

/-- One message of a prompt template: role, content type, text. -/
structure PromptMessage where
  role : String
  contentType : String
  text : String
deriving DecidableEq

/-- The `get_prompt` handler (lines 258-289): the one static template for
`booking_assistant`, a raised `ValueError` otherwise. -/
def get_prompt (name : String) : Except PyError (List PromptMessage) :=
  if name = "booking_assistant" then
    Except.ok [⟨"system", "text", bookingAssistantText⟩]
  else Except.error (PyError.valueError ("Unknown prompt: " ++ name))

/-- The argument dict Claude sends for a `book_cab` call. -/
def bookArgs (p d t c : String) : List (String × String) :=
  [("pickup_location", p), ("dropoff_location", d), ("pickup_datetime", t), ("cab_type", c)]

/-- One client request against the server, for stating whole-run
invariants: a tool call, a resource read, or a prompt fetch. -/
inductive Op where
  | tool (name : String) (args : List (String × String))
  | resource (uri : String)
  | prompt (name : String)

/-- Effect of one request on the globals.  `read_resource` and
`get_prompt` are pure reads in the source, so only tool calls can touch
the state. -/
def step (s : ServerState) (op : Op) : ServerState :=
  match op with
  | Op.tool name args => (call_tool name args s).2
  | Op.resource _ => s
  | Op.prompt _ => s

/-- Run a sequence of requests from the freshly started server. -/
def run (ops : List Op) : ServerState :=
  ops.foldl step initialState

/-- A request that `call_tool` treats as a successful `book_cab`: the
name matches and all four required argument keys are present. -/
def successfulCreate : Op → Bool
  | Op.tool name args =>
    name = "book_cab" &&
    (args.lookup "pickup_location").isSome &&
    (args.lookup "dropoff_location").isSome &&
    (args.lookup "pickup_datetime").isSome &&
    (args.lookup "cab_type").isSome
  | _ => false

/-- Run `n` successful creations from the fresh server, the i-th with the
four argument strings `inp i`. -/
def runCreates (inp : Nat → String × String × String × String) : Nat → ServerState
  | 0 => initialState
  | n + 1 =>
    let q := inp n
    (call_tool "book_cab" (bookArgs q.1 q.2.1 q.2.2.1 q.2.2.2) (runCreates inp n)).2

/-! Decimal representation: `Nat.repr` is injective.  The server builds
ids as `f"CAB{booking_counter}"`, so uniqueness of ids reduces to the
injectivity of the decimal rendering of the counter. -/

/-- Numeric value of a decimal digit character. -/
def charVal (c : Char) : Nat := c.toNat - 48

lemma charVal_digitChar : ∀ d < 10, charVal (Nat.digitChar d) = d := by decide

lemma foldl_toDigitsCore (fuel : Nat) :
    ∀ n ds, n < fuel →
      List.foldl (fun acc c => acc * 10 + charVal c) 0 (Nat.toDigitsCore 10 fuel n ds) =
      List.foldl (fun acc c => acc * 10 + charVal c) n ds := by
  induction fuel with
  | zero => intro n ds h; omega
  | succ f ih =>
    intro n ds hn
    simp only [Nat.toDigitsCore]
    by_cases h10 : n / 10 = 0
    · rw [if_pos h10]
      simp only [List.foldl]
      rw [charVal_digitChar _ (by omega)]
      congr 1
      omega
    · rw [if_neg h10]
      rw [ih (n / 10) _ (by omega)]
      simp only [List.foldl]
      rw [charVal_digitChar _ (by omega)]
      congr 1
      omega

lemma decode_toDigits (n : Nat) :
    List.foldl (fun acc c => acc * 10 + charVal c) 0 (Nat.toDigits 10 n) = n := by
  unfold Nat.toDigits
  rw [foldl_toDigitsCore (n + 1) n [] (Nat.lt_succ_self n)]
  rfl

lemma repr_injective {m n : Nat} (h : Nat.repr m = Nat.repr n) : m = n := by
  have hd : Nat.toDigits 10 m = Nat.toDigits 10 n := by
    have h2 := congrArg String.data h
    simpa [Nat.repr, List.asString] using h2
  have h3 := congrArg (List.foldl (fun acc c => acc * 10 + charVal c) 0) hd
  rwa [decode_toDigits, decode_toDigits] at h3

lemma cabId_injective {m n : Nat} (h : "CAB" ++ Nat.repr m = "CAB" ++ Nat.repr n) : m = n := by
  apply repr_injective
  apply String.ext
  have h2 := congrArg String.data h
  simp only [String.data_append] at h2
  exact List.append_cancel_left h2

/-! Dictionary lemmas for the association-list model of a Python dict. -/

lemma dictInsert_of_not_mem (k : String) (v : Booking) :
    ∀ (db : List (String × Booking)), k ∉ db.map Prod.fst →
      dictInsert k v db = db ++ [(k, v)] := by
  intro db
  induction db with
  | nil => intro _; rfl
  | cons hd tl ih =>
    obtain ⟨k', v'⟩ := hd
    intro h
    simp only [List.map_cons, List.mem_cons, not_or] at h
    rw [dictInsert, if_neg (fun he => h.1 he.symm), ih h.2]
    rfl

lemma lookup_dictInsert_self (k : String) (v : Booking) :
    ∀ db : List (String × Booking), (dictInsert k v db).lookup k = some v := by
  intro db
  induction db with
  | nil => simp [dictInsert]
  | cons hd tl ih =>
    obtain ⟨k', v'⟩ := hd
    by_cases h : k' = k
    · subst h; simp [dictInsert]
    · have hb : (k == k') = false := beq_eq_false_iff_ne.mpr (fun he => h he.symm)
      simp [dictInsert, h, List.lookup_cons, hb, ih]

lemma lookup_dictInsert_ne {k a : String} (h : a ≠ k) (v : Booking) :
    ∀ db : List (String × Booking), (dictInsert k v db).lookup a = db.lookup a := by
  intro db
  have hb : (a == k) = false := beq_eq_false_iff_ne.mpr h
  induction db with
  | nil => simp [dictInsert, List.lookup_cons, hb]
  | cons hd tl ih =>
    obtain ⟨k', v'⟩ := hd
    by_cases h1 : k' = k
    · subst h1; simp [dictInsert, List.lookup_cons, hb]
    · simp only [dictInsert, if_neg h1, List.lookup_cons, ih]

/-! Reachable-state invariant of the registry. -/

/-- Invariant of the server globals: the counter is 1000 plus the number
of stored bookings, the stored keys in insertion order are exactly
`CAB1000, CAB1001, ...`, and every stored record carries its own key as
`booking_id`, status `"confirmed"` and fare 50. -/
def goodState (s : ServerState) : Prop :=
  s.booking_counter = 1000 + s.bookings_db.length ∧
  s.bookings_db.map Prod.fst =
    (List.range s.bookings_db.length).map (fun i => "CAB" ++ Nat.repr (1000 + i)) ∧
  ∀ p ∈ s.bookings_db, p.2.booking_id = p.1 ∧ p.2.status = "confirmed" ∧ p.2.fare = 50

lemma goodState_initial : goodState initialState := by
  refine ⟨rfl, rfl, ?_⟩
  intro p hp
  simp [initialState] at hp

lemma fresh_key {s : ServerState} (hs : goodState s) :
    ("CAB" ++ Nat.repr s.booking_counter) ∉ s.bookings_db.map Prod.fst := by
  intro hmem
  rw [hs.2.1] at hmem
  simp only [List.mem_map, List.mem_range] at hmem
  obtain ⟨i, hi, heq⟩ := hmem
  have h1 := cabId_injective heq
  have h2 := hs.1
  omega

lemma goodState_insert {s : ServerState} (hs : goodState s) (p d t c : String) :
    goodState ⟨dictInsert ("CAB" ++ Nat.repr s.booking_counter)
        ⟨"CAB" ++ Nat.repr s.booking_counter, p, d, t, c, "confirmed", 50⟩ s.bookings_db,
      s.booking_counter + 1⟩ := by
  rw [dictInsert_of_not_mem _ _ _ (fresh_key hs)]
  refine ⟨?_, ?_, ?_⟩
  · simp only [List.length_append, List.length_singleton]
    have := hs.1
    omega
  · simp only [List.length_append, List.length_singleton, List.map_append, List.map_cons,
      List.map_nil, hs.2.1, List.range_succ, hs.1]
  · intro q hq
    rcases List.mem_append.mp hq with hq | hq
    · exact hs.2.2 q hq
    · simp only [List.mem_singleton] at hq
      subst hq
      exact ⟨rfl, rfl, rfl⟩

/-! Equational lemmas for the dispatcher branches. -/

lemma call_tool_book_ok {args : List (String × String)} {p d t c : String} (s : ServerState)
    (hp : args.lookup "pickup_location" = some p)
    (hd : args.lookup "dropoff_location" = some d)
    (ht : args.lookup "pickup_datetime" = some t)
    (hc : args.lookup "cab_type" = some c) :
    call_tool "book_cab" args s =
      (Except.ok [bookingConfirmationText ("CAB" ++ Nat.repr s.booking_counter) p d t c],
       ⟨dictInsert ("CAB" ++ Nat.repr s.booking_counter)
          ⟨"CAB" ++ Nat.repr s.booking_counter, p, d, t, c, "confirmed", 50⟩ s.bookings_db,
        s.booking_counter + 1⟩) := by
  simp only [call_tool, getArg, hp, hd, ht, hc, if_pos]
  rfl

lemma call_tool_check_state (args : List (String × String)) (s : ServerState) :
    (call_tool "check_booking_status" args s).2 = s := by
  unfold call_tool
  rw [if_neg (by decide), if_pos rfl]
  cases getArg args "booking_id" with
  | error e => rfl
  | ok bid =>
    show (match s.bookings_db.lookup bid with
      | some booking => (Except.ok [statusText booking], s)
      | none => (Except.ok [notFoundText bid], s)).2 = s
    cases s.bookings_db.lookup bid with
    | none => rfl
    | some b => rfl

lemma call_tool_list_state (args : List (String × String)) (s : ServerState) :
    (call_tool "list_available_cabs" args s).2 = s := by
  unfold call_tool
  rw [if_neg (by decide), if_neg (by decide), if_pos rfl]
  cases getArg args "location" with
  | error e => rfl
  | ok loc => rfl

lemma call_tool_unknown (name : String) (args : List (String × String)) (s : ServerState)
    (h1 : name ≠ "book_cab") (h2 : name ≠ "check_booking_status")
    (h3 : name ≠ "list_available_cabs") :
    call_tool name args s = (Except.ok ["Unknown tool: " ++ name], s) := by
  unfold call_tool
  rw [if_neg h1, if_neg h2, if_neg h3]

lemma call_tool_book_missing_pickup {args : List (String × String)} (s : ServerState)
    (h : args.lookup "pickup_location" = none) :
    call_tool "book_cab" args s = (Except.error (PyError.keyError "pickup_location"), s) := by
  simp only [call_tool, getArg, h, if_pos]
  rfl

lemma call_tool_check_missing {args : List (String × String)} (s : ServerState)
    (h : args.lookup "booking_id" = none) :
    call_tool "check_booking_status" args s =
      (Except.error (PyError.keyError "booking_id"), s) := by
  unfold call_tool
  rw [if_neg (by decide), if_pos rfl]
  simp [getArg, h]

lemma call_tool_state_cases (name : String) (args : List (String × String)) (s : ServerState) :
    ((call_tool name args s).2 = s ∧ successfulCreate (Op.tool name args) = false) ∨
    ∃ p d t c, args.lookup "pickup_location" = some p ∧
      args.lookup "dropoff_location" = some d ∧
      args.lookup "pickup_datetime" = some t ∧
      args.lookup "cab_type" = some c ∧ name = "book_cab" ∧
      (call_tool name args s).2 =
        ⟨dictInsert ("CAB" ++ Nat.repr s.booking_counter)
            ⟨"CAB" ++ Nat.repr s.booking_counter, p, d, t, c, "confirmed", 50⟩ s.bookings_db,
          s.booking_counter + 1⟩ := by
  by_cases h1 : name = "book_cab"
  · subst h1
    rcases hp : args.lookup "pickup_location" with _ | p
    · exact Or.inl ⟨by rw [call_tool_book_missing_pickup s hp], by simp [successfulCreate, hp]⟩
    rcases hd : args.lookup "dropoff_location" with _ | d
    · refine Or.inl ⟨?_, by simp [successfulCreate, hd]⟩
      simp only [call_tool, getArg, hp, hd, if_pos]
      rfl
    rcases ht : args.lookup "pickup_datetime" with _ | t
    · refine Or.inl ⟨?_, by simp [successfulCreate, ht]⟩
      simp only [call_tool, getArg, hp, hd, ht, if_pos]
      rfl
    rcases hc : args.lookup "cab_type" with _ | c
    · refine Or.inl ⟨?_, by simp [successfulCreate, hc]⟩
      simp only [call_tool, getArg, hp, hd, ht, hc, if_pos]
      rfl
    exact Or.inr ⟨p, d, t, c, rfl, rfl, rfl, rfl, rfl,
      by rw [call_tool_book_ok s hp hd ht hc]⟩
  · refine Or.inl ⟨?_, by simp [successfulCreate, h1]⟩
    by_cases h2 : name = "check_booking_status"
    · subst h2; exact call_tool_check_state args s
    by_cases h3 : name = "list_available_cabs"
    · subst h3; exact call_tool_list_state args s
    rw [call_tool_unknown name args s h1 h2 h3]

/-! Preservation of the invariant across whole runs. -/

lemma goodState_call_tool {s : ServerState} (hs : goodState s) (name : String)
    (args : List (String × String)) : goodState (call_tool name args s).2 := by
  rcases call_tool_state_cases name args s with ⟨h, _⟩ | ⟨p, d, t, c, _, _, _, _, _, h⟩
  · rw [h]; exact hs
  · rw [h]; exact goodState_insert hs p d t c

lemma goodState_step {s : ServerState} (hs : goodState s) (op : Op) :
    goodState (step s op) := by
  cases op with
  | tool name args => exact goodState_call_tool hs name args
  | resource u => exact hs
  | prompt n => exact hs

lemma goodState_foldl :
    ∀ (ops : List Op) (s : ServerState), goodState s → goodState (ops.foldl step s)
  | [], _, hs => hs
  | op :: ops, s, hs => goodState_foldl ops _ (goodState_step hs op)

lemma goodState_run (ops : List Op) : goodState (run ops) :=
  goodState_foldl ops initialState goodState_initial

lemma length_step {s : ServerState} (hs : goodState s) (op : Op) :
    (step s op).bookings_db.length =
      s.bookings_db.length + (if successfulCreate op then 1 else 0) := by
  cases op with
  | resource u => simp [step, successfulCreate]
  | prompt n => simp [step, successfulCreate]
  | tool name args =>
    rcases call_tool_state_cases name args s with ⟨h, hf⟩ | ⟨p, d, t, c, hp, hd, ht, hc, hn, h⟩
    · simp [step, h, hf]
    · subst hn
      have hsc : successfulCreate (Op.tool "book_cab" args) = true := by
        simp [successfulCreate, hp, hd, ht, hc]
      simp only [step, h, hsc, if_true]
      rw [dictInsert_of_not_mem _ _ _ (fresh_key hs)]
      simp

lemma length_foldl :
    ∀ (ops : List Op) (s : ServerState), goodState s →
      (ops.foldl step s).bookings_db.length =
        s.bookings_db.length + ops.countP successfulCreate
  | [], s, _ => by simp
  | op :: ops, s, hs => by
    rw [List.foldl_cons, length_foldl ops _ (goodState_step hs op), length_step hs op,
      List.countP_cons]
    cases hb : successfulCreate op <;> simp [hb] <;> omega

lemma run_length (ops : List Op) :
    (run ops).bookings_db.length = ops.countP successfulCreate := by
  rw [run, length_foldl ops initialState goodState_initial]
  simp [initialState]

lemma mem_keys_of_lookup {k : String} {b : Booking} :
    ∀ db : List (String × Booking), db.lookup k = some b → k ∈ db.map Prod.fst := by
  intro db
  induction db with
  | nil => intro h; simp at h
  | cons hd tl ih =>
    obtain ⟨k', v'⟩ := hd
    intro h
    rw [List.lookup_cons] at h
    by_cases hk : k = k'
    · simp [hk]
    · have hb : (k == k') = false := beq_eq_false_iff_ne.mpr hk
      simp only [hb] at h
      simp only [List.map_cons, List.mem_cons]
      exact Or.inr (ih h)

lemma lookup_step {s : ServerState} (hs : goodState s) (op : Op) (k : String) (b : Booking)
    (h : s.bookings_db.lookup k = some b) :
    (step s op).bookings_db.lookup k = some b := by
  cases op with
  | resource u => exact h
  | prompt n => exact h
  | tool name args =>
    rcases call_tool_state_cases name args s with ⟨hst, _⟩ | ⟨p, d, t, c, _, _, _, _, _, hst⟩
    · simp only [step, hst]; exact h
    · simp only [step, hst]
      have hk : k ≠ "CAB" ++ Nat.repr s.booking_counter := by
        intro he
        exact fresh_key hs (he ▸ mem_keys_of_lookup _ h)
      rw [lookup_dictInsert_ne hk _ _]
      exact h

lemma lookup_foldl {k : String} {b : Booking} :
    ∀ (extra : List Op) (s : ServerState), goodState s →
      s.bookings_db.lookup k = some b →
      (extra.foldl step s).bookings_db.lookup k = some b
  | [], _, _, h => h
  | op :: extra, s, hs, h =>
    lookup_foldl extra _ (goodState_step hs op) (lookup_step hs op k b h)

/-! JSON round trip for the `booking://all` snapshot. -/

lemma jsonToBooking_bookingToJson (b : Booking) :
    jsonToBooking (bookingToJson b) = some b := rfl

lemma jsonToDb_dbToJson (db : List (String × Booking)) :
    jsonToDb (dbToJson db) = some db := by
  induction db with
  | nil => rfl
  | cons hd tl ih =>
    obtain ⟨k, b⟩ := hd
    have ih' : decodeEntries (tl.map (fun p => (p.1, bookingToJson p.2))) = some tl := ih
    show decodeEntries ((k, bookingToJson b) :: tl.map (fun p => (p.1, bookingToJson p.2))) =
      some ((k, b) :: tl)
    rw [decodeEntries]
    simp [jsonToBooking_bookingToJson, ih']

/-! Runs consisting only of successful creations. -/

lemma bookArgs_pickup (p d t c : String) :
    (bookArgs p d t c).lookup "pickup_location" = some p := rfl

lemma bookArgs_dropoff (p d t c : String) :
    (bookArgs p d t c).lookup "dropoff_location" = some d := rfl

lemma bookArgs_datetime (p d t c : String) :
    (bookArgs p d t c).lookup "pickup_datetime" = some t := rfl

lemma bookArgs_cabtype (p d t c : String) :
    (bookArgs p d t c).lookup "cab_type" = some c := rfl

lemma goodState_runCreates (inp : Nat → String × String × String × String) :
    ∀ n, goodState (runCreates inp n)
  | 0 => goodState_initial
  | n + 1 => goodState_call_tool (goodState_runCreates inp n) _ _

lemma runCreates_counter (inp : Nat → String × String × String × String) :
    ∀ n, (runCreates inp n).booking_counter = 1000 + n
  | 0 => rfl
  | n + 1 => by
    show ((call_tool "book_cab"
        (bookArgs (inp n).1 (inp n).2.1 (inp n).2.2.1 (inp n).2.2.2)
        (runCreates inp n)).2).booking_counter = 1000 + (n + 1)
    rw [call_tool_book_ok (runCreates inp n) (bookArgs_pickup _ _ _ _) (bookArgs_dropoff _ _ _ _)
      (bookArgs_datetime _ _ _ _) (bookArgs_cabtype _ _ _ _)]
    show (runCreates inp n).booking_counter + 1 = 1000 + (n + 1)
    rw [runCreates_counter inp n]
    omega

lemma runCreates_keys (inp : Nat → String × String × String × String) (n : Nat) :
    (runCreates inp n).bookings_db.map Prod.fst =
      (List.range n).map (fun i => "CAB" ++ Nat.repr (1000 + i)) := by
  have hg := goodState_runCreates inp n
  have hlen : (runCreates inp n).bookings_db.length = n := by
    have h1 := hg.1
    have h2 := runCreates_counter inp n
    omega
  rw [hg.2.1, hlen]

/-! Claim theorems. -/

/-- C1: From the freshly started server, the first successful `book_cab`
returns a confirmation for id `CAB1000` and stores a booking with the
constant fare 50.00 and status `"confirmed"` (the stored form of the
Confirmed status); a second creation returns id `CAB1001`; and in
general the i-th issued id is `"CAB"` followed by the decimal counter
`1000 + i`, so issued ids are pairwise distinct and their counters are
strictly increasing across the sequence of creations. -/
theorem booking_ids_monotone_unique :
    ((call_tool "book_cab" (bookArgs "Airport" "Downtown" "2024-01-01T10:00:00" "Premium")
        initialState).1 =
      Except.ok [bookingConfirmationText "CAB1000" "Airport" "Downtown"
        "2024-01-01T10:00:00" "Premium"] ∧
     ((call_tool "book_cab" (bookArgs "Airport" "Downtown" "2024-01-01T10:00:00" "Premium")
        initialState).2).bookings_db.lookup "CAB1000" =
      some ⟨"CAB1000", "Airport", "Downtown", "2024-01-01T10:00:00", "Premium",
        "confirmed", 50⟩) ∧
    (∀ p d t c : String,
      (call_tool "book_cab" (bookArgs p d t c)
        (call_tool "book_cab" (bookArgs "Airport" "Downtown" "2024-01-01T10:00:00" "Premium")
          initialState).2).1 =
        Except.ok [bookingConfirmationText "CAB1001" p d t c]) ∧
    (∀ (inp : Nat → String × String × String × String) (n : Nat),
      (runCreates inp n).bookings_db.map Prod.fst =
        (List.range n).map (fun i => "CAB" ++ Nat.repr (1000 + i))) ∧
    (∀ i j : Nat, i < j →
      ("CAB" ++ Nat.repr (1000 + i)) ≠ ("CAB" ++ Nat.repr (1000 + j)) ∧
      1000 + i < 1000 + j) := by
  refine ⟨⟨rfl, rfl⟩, ?_, runCreates_keys, ?_⟩
  · intro p d t c
    rw [call_tool_book_ok _ (bookArgs_pickup _ _ _ _) (bookArgs_dropoff _ _ _ _)
      (bookArgs_datetime _ _ _ _) (bookArgs_cabtype _ _ _ _)]
    rfl
  · intro i j hij
    refine ⟨fun h => ?_, by omega⟩
    have := cabId_injective h
    omega

theorem booking_ids_monotone_unique_witness :
    ("CAB" ++ Nat.repr (1000 + 0)) ≠ ("CAB" ++ Nat.repr (1000 + 1)) ∧
      1000 + 0 < 1000 + 1 :=
  booking_ids_monotone_unique.2.2.2 0 1 (by decide)

/-- C2 counterexample: the code performs no input validation, so
`book_cab` with an empty `pickup_location` does not fail at all: it
returns an ordinary confirmation and the store grows by one entry,
contradicting the claimed `InvalidInput` failure with no insertion. -/
theorem book_cab_empty_pickup_cex :
    (call_tool "book_cab" (bookArgs "" "Downtown" "2024-01-01T10:00:00" "Premium")
        initialState).1 =
      Except.ok [bookingConfirmationText "CAB1000" "" "Downtown" "2024-01-01T10:00:00"
        "Premium"] ∧
    ((call_tool "book_cab" (bookArgs "" "Downtown" "2024-01-01T10:00:00" "Premium")
        initialState).2).bookings_db.length = initialState.bookings_db.length + 1 :=
  ⟨rfl, rfl⟩

/-- C2 amended: `book_cab` does not validate its inputs.  With an empty
`pickup_location` (and all four argument keys present) the call still
succeeds with an ordinary confirmation and inserts a booking, increasing
the store length by one, from any reachable server state. -/
theorem book_cab_empty_pickup_no_validation (s : ServerState) (hs : goodState s)
    (d t c : String) :
    (∃ text, (call_tool "book_cab" (bookArgs "" d t c) s).1 = Except.ok [text]) ∧
    ((call_tool "book_cab" (bookArgs "" d t c) s).2).bookings_db.length =
      s.bookings_db.length + 1 := by
  rw [call_tool_book_ok s (bookArgs_pickup _ _ _ _) (bookArgs_dropoff _ _ _ _)
    (bookArgs_datetime _ _ _ _) (bookArgs_cabtype _ _ _ _)]
  refine ⟨⟨_, rfl⟩, ?_⟩
  rw [dictInsert_of_not_mem _ _ _ (fresh_key hs)]
  simp

theorem book_cab_empty_pickup_no_validation_witness :
    (∃ text, (call_tool "book_cab" (bookArgs "" "Downtown" "2024-01-01T10:00:00" "Premium")
        initialState).1 = Except.ok [text]) ∧
    ((call_tool "book_cab" (bookArgs "" "Downtown" "2024-01-01T10:00:00" "Premium")
        initialState).2).bookings_db.length = initialState.bookings_db.length + 1 :=
  book_cab_empty_pickup_no_validation initialState goodState_initial
    "Downtown" "2024-01-01T10:00:00" "Premium"

/-- C3 counterexample: `book_cab` invoked without a `pickup_location`
key raises `KeyError` (the `arguments["pickup_location"]` subscript),
which escapes the `call_tool` handler, contradicting the claim that no
uncaught exception escapes on bad input. -/
theorem call_tool_missing_arg_cex :
    call_tool "book_cab" [] initialState =
      (Except.error (PyError.keyError "pickup_location"), initialState) := rfl

/-- C3 amended: the dispatcher never raises for unrecognized tool names
(it answers with ordinary text), but a recognized tool invoked without a
required argument raises a `KeyError` that escapes the handler; in every
error case the registry state is left unchanged. -/
theorem dispatcher_error_channels (name : String) (args : List (String × String))
    (s : ServerState) :
    (name ≠ "book_cab" → name ≠ "check_booking_status" → name ≠ "list_available_cabs" →
      call_tool name args s = (Except.ok ["Unknown tool: " ++ name], s)) ∧
    (args.lookup "pickup_location" = none →
      call_tool "book_cab" args s = (Except.error (PyError.keyError "pickup_location"), s)) ∧
    (args.lookup "booking_id" = none →
      call_tool "check_booking_status" args s =
        (Except.error (PyError.keyError "booking_id"), s)) ∧
    (∀ e, (call_tool name args s).1 = Except.error e → (call_tool name args s).2 = s) := by
  refine ⟨call_tool_unknown name args s, call_tool_book_missing_pickup s,
    call_tool_check_missing s, ?_⟩
  intro e he
  rcases call_tool_state_cases name args s with ⟨h, _⟩ | ⟨p, d, t, c, hp, hd, ht, hc, hn, h⟩
  · exact h
  · subst hn
    rw [call_tool_book_ok s hp hd ht hc] at he
    simp at he

theorem dispatcher_error_channels_witness :
    call_tool "cancel_booking" [] initialState =
      (Except.ok ["Unknown tool: " ++ "cancel_booking"], initialState) ∧
    call_tool "check_booking_status" [] initialState =
      (Except.error (PyError.keyError "booking_id"), initialState) :=
  ⟨(dispatcher_error_channels "cancel_booking" [] initialState).1
      (by decide) (by decide) (by decide),
   (dispatcher_error_channels "check_booking_status" [] initialState).2.2.1 rfl⟩

/-- C4: `check_booking_status` on any id that is not stored returns the
ordinary not-found text content (no exception) and leaves the whole
server state, in particular the number of stored bookings, unchanged. -/
theorem check_status_unknown_id (s : ServerState) (args : List (String × String))
    (bid : String) (hb : args.lookup "booking_id" = some bid)
    (h : s.bookings_db.lookup bid = none) :
    call_tool "check_booking_status" args s = (Except.ok [notFoundText bid], s) := by
  unfold call_tool
  rw [if_neg (by decide), if_pos rfl]
  simp only [getArg, hb]
  show (match s.bookings_db.lookup bid with
    | some booking => (Except.ok [statusText booking], s)
    | none => (Except.ok [notFoundText bid], s)) = (Except.ok [notFoundText bid], s)
  rw [h]

theorem check_status_unknown_id_witness :
    call_tool "check_booking_status" [("booking_id", "CAB9999")] initialState =
      (Except.ok [notFoundText "CAB9999"], initialState) :=
  check_status_unknown_id initialState [("booking_id", "CAB9999")] "CAB9999" rfl rfl

/-- C5: A successful creation returns a confirmation carrying the new id
and stores under that id a booking whose fields are exactly the supplied
pickup, dropoff, datetime and cab type together with the computed status
`"confirmed"` and fare 50.00, so looking the id up immediately after
creation yields precisely those values. -/
theorem create_then_get (s : ServerState) (p d t c : String) :
    (call_tool "book_cab" (bookArgs p d t c) s).1 =
      Except.ok [bookingConfirmationText ("CAB" ++ Nat.repr s.booking_counter) p d t c] ∧
    ((call_tool "book_cab" (bookArgs p d t c) s).2).bookings_db.lookup
        ("CAB" ++ Nat.repr s.booking_counter) =
      some ⟨"CAB" ++ Nat.repr s.booking_counter, p, d, t, c, "confirmed", 50⟩ := by
  rw [call_tool_book_ok s (bookArgs_pickup _ _ _ _) (bookArgs_dropoff _ _ _ _)
    (bookArgs_datetime _ _ _ _) (bookArgs_cabtype _ _ _ _)]
  exact ⟨rfl, lookup_dictInsert_self _ _ _⟩

/-- C6: After any sequence of requests from the fresh server, the number
of stored bookings equals the number of successful `book_cab` creations
performed, and the store keys in creation (insertion) order are exactly
`CAB1000, CAB1001, ...` — the ascending, duplicate-free enumeration by
issued id. -/
theorem registry_size_and_order (ops : List Op) :
    (run ops).bookings_db.length = ops.countP successfulCreate ∧
    (run ops).bookings_db.map Prod.fst =
      (List.range (ops.countP successfulCreate)).map
        (fun i => "CAB" ++ Nat.repr (1000 + i)) ∧
    ((run ops).bookings_db.map Prod.fst).Nodup := by
  refine ⟨run_length ops, ?_, ?_⟩
  · rw [(goodState_run ops).2.1, run_length ops]
  · rw [(goodState_run ops).2.1]
    refine List.Nodup.map ?_ (List.nodup_range _)
    intro a b hab
    have := cabId_injective hab
    omega

/-- C7: The `booking://all` resource is the JSON serialization of the
whole store, and parsing that serialization back (decoding the JSON
value `json.loads` yields) reconstructs the id-to-booking mapping
exactly, for every store contents. -/
theorem snapshot_roundtrip :
    (∀ s : ServerState,
      read_resource "booking://all" s = Except.ok (dbToJson s.bookings_db)) ∧
    (∀ db : List (String × Booking), jsonToDb (dbToJson db) = some db) :=
  ⟨fun _ => rfl, jsonToDb_dbToJson⟩

/-- C8: An unrecognized tool name is answered with ordinary textual
content (no exception), while an unrecognized resource URI or prompt
name makes the provider raise a `ValueError` (a boundary-level failure)
instead of returning content. -/
theorem failure_channel_assignment :
    (∀ (name : String) (args : List (String × String)) (s : ServerState),
      name ≠ "book_cab" → name ≠ "check_booking_status" → name ≠ "list_available_cabs" →
      call_tool name args s = (Except.ok ["Unknown tool: " ++ name], s)) ∧
    (∀ (uri : String) (s : ServerState), uri ≠ "booking://all" →
      read_resource uri s =
        Except.error (PyError.valueError ("Unknown resource: " ++ uri))) ∧
    (∀ name : String, name ≠ "booking_assistant" →
      get_prompt name = Except.error (PyError.valueError ("Unknown prompt: " ++ name))) := by
  refine ⟨call_tool_unknown, ?_, ?_⟩
  · intro uri s h
    simp only [read_resource, if_neg h]
  · intro nm h
    simp only [get_prompt, if_neg h]

theorem failure_channel_assignment_witness :
    call_tool "cancel_cab" [] initialState =
      (Except.ok ["Unknown tool: " ++ "cancel_cab"], initialState) ∧
    read_resource "booking://none" initialState =
      Except.error (PyError.valueError ("Unknown resource: " ++ "booking://none")) ∧
    get_prompt "driver_assistant" =
      Except.error (PyError.valueError ("Unknown prompt: " ++ "driver_assistant")) :=
  ⟨failure_channel_assignment.1 "cancel_cab" [] initialState
      (by decide) (by decide) (by decide),
   failure_channel_assignment.2.1 "booking://none" initialState (by decide),
   failure_channel_assignment.2.2 "driver_assistant" (by decide)⟩

/-- C9: The two read-only tools never touch the shared globals: any
`check_booking_status` or `list_available_cabs` invocation (with any
arguments, including bad ones) returns the booking store and the id
counter exactly as they were. -/
theorem readonly_actions_preserve_state (args : List (String × String)) (s : ServerState) :
    (call_tool "check_booking_status" args s).2 = s ∧
    (call_tool "list_available_cabs" args s).2 = s :=
  ⟨call_tool_check_state args s, call_tool_list_state args s⟩

/-- C10: After any sequence of requests, every stored record carries its
own key as `booking_id`, status `"confirmed"` and fare 50.00; and a
record once stored is never modified or removed by any further sequence
of requests. -/
theorem stored_records_invariant (ops : List Op) :
    (∀ p ∈ (run ops).bookings_db,
      p.2.booking_id = p.1 ∧ p.2.status = "confirmed" ∧ p.2.fare = 50) ∧
    (∀ (extra : List Op) (k : String) (b : Booking),
      (run ops).bookings_db.lookup k = some b →
      (run (ops ++ extra)).bookings_db.lookup k = some b) := by
  refine ⟨(goodState_run ops).2.2, ?_⟩
  intro extra k b h
  rw [run, List.foldl_append]
  exact lookup_foldl extra (ops.foldl step initialState) (goodState_run ops) h

theorem stored_records_invariant_witness :
    (run ([Op.tool "book_cab" (bookArgs "Airport" "Downtown" "2024-01-01T10:00:00" "Premium")]
        ++ [Op.prompt "booking_assistant"])).bookings_db.lookup "CAB1000" =
      some ⟨"CAB1000", "Airport", "Downtown", "2024-01-01T10:00:00", "Premium",
        "confirmed", 50⟩ :=
  (stored_records_invariant
      [Op.tool "book_cab" (bookArgs "Airport" "Downtown" "2024-01-01T10:00:00" "Premium")]).2
    [Op.prompt "booking_assistant"] "CAB1000"
    ⟨"CAB1000", "Airport", "Downtown", "2024-01-01T10:00:00", "Premium", "confirmed", 50⟩
    (by decide)
